import Mathlib

/-!
Verification development for the ck-mexx trading webhook (src/app.py).

The Python source is shallowly embedded: pure computation becomes Lean
functions over ℚ and String; the effectful parts (HTTP transport, venue
responses, balance fetches, the ccxt precision helpers) become explicit
oracle parameters in an environment record, and each handler returns its
HTTP result together with a trace of the outbound calls it made.
Numeric code is modelled in exact rational arithmetic.
-/

set_option maxRecDepth 8000

namespace CkMexx

/-! ## Byte-level utilities: UTF-8 encoding, hex rendering -/

/-- UTF-8 encoding of a single Unicode code point, as byte values. -/
def utf8Encode (c : ℕ) : List ℕ :=
  if c < 128 then [c]
  else if c < 2048 then [192 + c / 64, 128 + c % 64]
  else if c < 65536 then [224 + c / 4096, 128 + c / 64 % 64, 128 + c % 64]
  else [240 + c / 262144, 128 + c / 4096 % 64, 128 + c / 64 % 64, 128 + c % 64]

/-- The UTF-8 bytes of a string (Python `str.encode()`). -/
def strBytes (s : String) : List ℕ :=
  (s.data.map (fun c => utf8Encode c.toNat)).foldr (· ++ ·) []

/-- Lower-case hex digit for a value below 16. -/
def hexDigitChar (n : ℕ) : Char :=
  Char.ofNat (if n < 10 then 48 + n else 87 + n)

/-- Lower-case hex rendering of a byte list (Python `hexdigest`). -/
def hexOfBytes (bs : List ℕ) : String :=
  String.mk (bs.foldr (fun b acc => hexDigitChar (b / 16 % 16) :: hexDigitChar (b % 16) :: acc) [])

/-! ## SHA-256 and HMAC-SHA256 (the `hashlib` / `hmac` calls of the source) -/

/-- 2 to the 32: all SHA-256 words live below this bound. -/
def w32 : ℕ := 4294967296

def add32 (a b : ℕ) : ℕ := (a + b) % w32

/-- Right rotation of a 32-bit word. -/
def rotr32 (x n : ℕ) : ℕ := x / 2 ^ n + x % 2 ^ n * 2 ^ (32 - n)

/-- Logical right shift of a 32-bit word. -/
def shr32 (x n : ℕ) : ℕ := x / 2 ^ n

/-- Bitwise complement within 32 bits. -/
def not32 (x : ℕ) : ℕ := 4294967295 - x

def bsig0 (x : ℕ) : ℕ := Nat.xor (rotr32 x 2) (Nat.xor (rotr32 x 13) (rotr32 x 22))
def bsig1 (x : ℕ) : ℕ := Nat.xor (rotr32 x 6) (Nat.xor (rotr32 x 11) (rotr32 x 25))
def ssig0 (x : ℕ) : ℕ := Nat.xor (rotr32 x 7) (Nat.xor (rotr32 x 18) (shr32 x 3))
def ssig1 (x : ℕ) : ℕ := Nat.xor (rotr32 x 17) (Nat.xor (rotr32 x 19) (shr32 x 10))

def chF (x y z : ℕ) : ℕ := Nat.xor (Nat.land x y) (Nat.land (not32 x) z)
def majF (x y z : ℕ) : ℕ := Nat.xor (Nat.land x y) (Nat.xor (Nat.land x z) (Nat.land y z))

/-- The 64 SHA-256 round constants (decimal renderings of the standard
fractional cube-root words). -/
def shaK : List ℕ :=
  [1116352408, 1899447441, 3049323471, 3921009573,
   961987163, 1508970993, 2453635748, 2870763221,
   3624381080, 310598401, 607225278, 1426881987,
   1925078388, 2162078206, 2614888103, 3248222580,
   3835390401, 4022224774, 264347078, 604807628,
   770255983, 1249150122, 1555081692, 1996064986,
   2554220882, 2821834349, 2952996808, 3210313671,
   3336571891, 3584528711, 113926993, 338241895,
   666307205, 773529912, 1294757372, 1396182291,
   1695183700, 1986661051, 2177026350, 2456956037,
   2730485921, 2820302411, 3259730800, 3345764771,
   3516065817, 3600352804, 4094571909, 275423344,
   430227734, 506948616, 659060556, 883997877,
   958139571, 1322822218, 1537002063, 1747873779,
   1955562222, 2024104815, 2227730452, 2361852424,
   2428436474, 2756734187, 3204031479, 3329325298]

/-- The eight-word SHA-256 state. -/
structure Sha8 where
  a : ℕ
  b : ℕ
  c : ℕ
  d : ℕ
  e : ℕ
  f : ℕ
  g : ℕ
  h : ℕ

def sha8Init : Sha8 :=
  ⟨1779033703, 3144134277, 1013904242, 2773480762,
   1359893119, 2600822924, 528734635, 1541459225⟩

/-- Big-endian byte rendering of a natural number into a fixed width. -/
def beBytes : ℕ → ℕ → List ℕ
  | 0, _ => []
  | n + 1, v => beBytes n (v / 256) ++ [v % 256]

/-- SHA-256 padding: append 0x80, zero bytes, and the 64-bit bit length. -/
def padMsg (msg : List ℕ) : List ℕ :=
  msg ++ 128 :: List.replicate ((119 - msg.length % 64) % 64) 0 ++ beBytes 8 (8 * msg.length)

/-- The first 16 message-schedule words of one 64-byte block. -/
def wordsOfBlock (blk : List ℕ) : List ℕ :=
  (List.range 16).map fun i =>
    blk.getD (4 * i) 0 * 16777216 + blk.getD (4 * i + 1) 0 * 65536 +
      blk.getD (4 * i + 2) 0 * 256 + blk.getD (4 * i + 3) 0

/-- Extend 16 schedule words to the full 64. -/
def schedule (ws : List ℕ) : List ℕ :=
  (List.range 48).foldl
    (fun acc t =>
      acc ++ [add32 (add32 (ssig1 (acc.getD (t + 14) 0)) (acc.getD (t + 9) 0))
                (add32 (ssig0 (acc.getD (t + 1) 0)) (acc.getD t 0))])
    ws

/-- One SHA-256 compression step over a 64-word schedule. -/
def compress (H : Sha8) (ws : List ℕ) : Sha8 :=
  let fin := (List.range 64).foldl
    (fun s t =>
      let T1 := add32 s.h (add32 (bsig1 s.e) (add32 (chF s.e s.f s.g)
        (add32 (shaK.getD t 0) (ws.getD t 0))))
      let T2 := add32 (bsig0 s.a) (majF s.a s.b s.c)
      ⟨add32 T1 T2, s.a, s.b, s.c, add32 s.d T1, s.e, s.f, s.g⟩)
    H
  ⟨add32 H.a fin.a, add32 H.b fin.b, add32 H.c fin.c, add32 H.d fin.d,
   add32 H.e fin.e, add32 H.f fin.f, add32 H.g fin.g, add32 H.h fin.h⟩

/-- SHA-256 of a byte list, as a 32-byte digest. -/
def sha256 (msg : List ℕ) : List ℕ :=
  let padded := padMsg msg
  let final := (List.range (padded.length / 64)).foldl
    (fun H i => compress H (schedule (wordsOfBlock ((padded.drop (64 * i)).take 64))))
    sha8Init
  ([final.a, final.b, final.c, final.d, final.e, final.f, final.g, final.h].map
    (beBytes 4)).foldr (· ++ ·) []

/-- HMAC-SHA256 over byte lists (Python `hmac.new(secret, msg, hashlib.sha256)`). -/
def hmacSha256 (key msg : List ℕ) : List ℕ :=
  let k0 := if 64 < key.length then sha256 key else key
  let kp := k0 ++ List.replicate (64 - k0.length) 0
  sha256 ((kp.map (fun b => Nat.xor b 92)) ++ sha256 ((kp.map (fun b => Nat.xor b 54)) ++ msg))

/-- Hex digest of the HMAC (Python `.hexdigest()`). -/
def hmacSha256Hex (key msg : List ℕ) : String :=
  hexOfBytes (hmacSha256 key msg)

/-! ## Request parameter values and the signing function `sign_request` -/

/-- A Python request-parameter value: the source mixes strings and ints. -/
inductive PyVal where
  | str (s : String)
  | int (i : ℤ)
deriving DecidableEq

/-- Python `f-string` rendering of a parameter value. -/
def PyVal.pyStr : PyVal → String
  | .str s => s
  | .int i => toString i

/-- The empty-valued test the spec describes: only the empty string counts
(Python `v != ""` is true for every int, including 0). -/
def isEmptyValued : PyVal → Bool
  | .str s => s = ""
  | .int _ => false

/-- Embedding of `sign_request` (src/app.py lines 54-61): sort the items
by key, join the non-empty `k=v` pairs with `&`, HMAC-SHA256 the query
with the account secret, return the hex digest. -/
def sign_request (secret : String) (params : List (String × PyVal)) : String :=
  let ordered_items := params.mergeSort (fun x y => decide (x.1 ≤ y.1))
  let query := String.intercalate "&"
    ((ordered_items.filter (fun kv => !(decide (kv.2 = PyVal.str "")))).map
      (fun kv => kv.1 ++ "=" ++ kv.2.pyStr))
  hmacSha256Hex (strBytes secret) (strBytes query)

/-- The signing protocol exactly as the spec words it (spec section 4.4):
parameters sorted by key, concatenated as key=value pairs joined by `&`
with empty-valued parameters omitted, authenticated with HMAC-SHA256
under the account secret, hex digest. -/
def spec_signature (secret : String) (params : List (String × PyVal)) : String :=
  let sortedParams := params.mergeSort (fun x y => decide (x.1 ≤ y.1))
  let query := String.intercalate "&"
    ((sortedParams.filter (fun kv => !(isEmptyValued kv.2))).map
      (fun kv => kv.1 ++ "=" ++ kv.2.pyStr))
  hmacSha256Hex (strBytes secret) (strBytes query)

/-! ## Python string primitives

The handful of string methods the source uses (`upper`, `lower`,
`strip`, `split(".")[0]`, `endswith`, slicing) are embedded as
structurally recursive functions over the character list, with the ASCII
case mapping (every string the handler manipulates is ASCII). -/

/-- Python `str.upper` on an ASCII character. -/
def chUpper (c : Char) : Char :=
  if 97 ≤ c.toNat ∧ c.toNat ≤ 122 then Char.ofNat (c.toNat - 32) else c

/-- Python `str.lower` on an ASCII character. -/
def chLower (c : Char) : Char :=
  if 65 ≤ c.toNat ∧ c.toNat ≤ 90 then Char.ofNat (c.toNat + 32) else c

def pyUpper (s : String) : String := String.mk (s.data.map chUpper)

def pyLower (s : String) : String := String.mk (s.data.map chLower)

/-- The whitespace characters Python `str.strip` removes. -/
def isWs (c : Char) : Bool :=
  c.toNat = 32 || c.toNat = 9 || c.toNat = 10 || c.toNat = 13 || c.toNat = 11 || c.toNat = 12

/-- Python `str.strip()`. -/
def pyStrip (s : String) : String :=
  String.mk (((s.data.dropWhile isWs).reverse.dropWhile isWs).reverse)

/-- Python `s.split(".")[0]`: the prefix before the first dot. -/
def headBeforeDot (s : String) : String :=
  String.mk (s.data.takeWhile (fun c => c.toNat ≠ 46))

/-- Python `s.endswith(t)`. -/
def pyEndsWith (s t : String) : Bool := t.data.isSuffixOf s.data

/-- Python `s[:-n]` (for n at most the length). -/
def pyDropRight (s : String) (n : ℕ) : String :=
  String.mk (s.data.take (s.data.length - n))

/-! ## Transport model and the order client `place_mexc_futures_order` -/

/-- The decoded JSON body of a venue response, projected to the fields the
source consults: `data.get("success", False)`, `data.get("code")` and
`data.get("data", data)` (the payload is kept opaque as a string tag). -/
structure VenueBody where
  success : Option Bool
  code : Option String
  data : Option String
deriving DecidableEq

/-- Outcome of one outbound HTTP POST: a transport timeout (the
`requests` exception) or a decoded response with its status code. -/
inductive TransportEvent where
  | timeout
  | resp (status : ℕ) (body : VenueBody)
deriving DecidableEq

/-- The exceptions `place_mexc_futures_order` can raise: the
`ValueError(f"Unknown side: ...")` of line 108, the propagated transport
exception of line 149, the HTTP-status exception of line 151, and the
venue-rejection exception of line 156. -/
inductive PlaceErr where
  | badSide (side : String)
  | transport
  | httpError (status : ℕ)
  | rejected (body : VenueBody)
deriving DecidableEq

/-- The successful return of line 158: the body payload if a `data` field
is present, otherwise the whole body. -/
inductive VenueData where
  | payload (s : String)
  | whole (b : VenueBody)
deriving DecidableEq

/-- Result of one `place_mexc_futures_order` invocation. -/
inductive PlaceRes where
  | err (e : PlaceErr)
  | ok (d : VenueData)
deriving DecidableEq

/-- Outbound calls, as recorded in the execution trace of the webhook:
the balance fetch, the ccxt leverage call (with its arguments and
observed outcome), an invocation of the order function, and the actual
HTTP order POST with the parameters the claims inspect. -/
inductive Call where
  | fetchBalance
  | setLeverage (lev openType positionType : ℕ) (ok : Bool)
  | placeAttempt (symbol side : String)
  | orderPost (symbol : String) (sideParam positionType : ℕ) (vol : ℚ) (price : Option ℚ)
deriving DecidableEq

/-- Per-invocation external inputs of the order client: the wall-clock
timestamp string, the generated UUID, and the transport oracle giving the
outcome of the i-th outbound call of this invocation. -/
structure PlaceCtx where
  timestamp : String
  clientOid : String
  transport : ℕ → TransportEvent

/-- What one order-client invocation produced: its result, the HTTP POSTs
it made, and the signed JSON body it sent (if it reached the POST). -/
structure PlaceOut where
  result : PlaceRes
  posts : List Call
  sentBody : Option (List (String × PyVal))

/-- Rendering of a ℚ quantity into the string the JSON body carries
(Python `str(...)` of a float; the exact decimal spelling is irrelevant
to every claim, so an exact fraction rendering is used). -/
def ratStr (q : ℚ) : String := toString q.num ++ "/" ++ toString q.den

/-- The parameter dictionary of src/app.py lines 122-134, in source
order, for a given side code and position type. -/
def placeParams (ctx : PlaceCtx) (symbol : String) (quantity : ℚ) (price : Option ℚ)
    (leverage : ℕ) (side_param position_type : ℕ) : List (String × PyVal) :=
  let order_type : ℕ := if price = none then 5 else 1
  [("symbol", .str symbol),
   ("price", .str (match price with | some p => ratStr p | none => "")),
   ("vol", .str (ratStr quantity)),
   ("side", .int side_param),
   ("openType", .int 1),
   ("positionType", .int position_type),
   ("leverage", .int leverage),
   ("externalOid", .str ctx.clientOid),
   ("type", .int order_type),
   ("timestamp", .str ctx.timestamp),
   ("recvWindow", .int 5000)]

/-- The signing, POST and response handling of lines 136-158, after the
side has been validated and encoded. -/
def placeCore (secret : String) (ctx : PlaceCtx) (symbol : String) (quantity : ℚ)
    (price : Option ℚ) (leverage : ℕ) (side_param position_type : ℕ) : PlaceOut :=
  let params := placeParams ctx symbol quantity price leverage side_param position_type
  let body := params ++ [("sign", .str (sign_request secret params))]
  let post := Call.orderPost symbol side_param position_type quantity price
  match ctx.transport 0 with
  | .timeout => ⟨.err .transport, [post], some body⟩
  | .resp status rbody =>
    if status ≠ 200 then ⟨.err (.httpError status), [post], some body⟩
    else if ¬ rbody.success.getD false ∧ rbody.code ≠ some "0" then
      ⟨.err (.rejected rbody), [post], some body⟩
    else
      ⟨.ok (match rbody.data with | some d => .payload d | none => .whole rbody),
       [post], some body⟩

/-- Embedding of `place_mexc_futures_order` (src/app.py lines 64-158).
The side string is stripped and lower-cased; "long" maps to side code 1
and position type 1, "short" to side code 3 and position type 2 (the
source comments document 1 = open long, 3 = open short); any other side
raises `ValueError` before any outbound call. A `price` of `none` is a
market order (type 5), otherwise a limit order (type 1). Exactly one
HTTP POST is made on the valid-side path; there is no retry loop. -/
def place_mexc_futures_order (secret : String) (ctx : PlaceCtx) (symbol side : String)
    (quantity : ℚ) (price : Option ℚ) (leverage : ℕ) : PlaceOut :=
  let side_lower := pyLower (pyStrip side)
  if side_lower = "long" then
    placeCore secret ctx symbol quantity price leverage 1 1
  else if side_lower = "short" then
    placeCore secret ctx symbol quantity price leverage 3 2
  else
    ⟨.err (.badSide side), [], none⟩

/-- Per the source comments (lines 92 and 101-106), side code 1 opens a
long position and side code 3 opens a short position; the close-side
codes would be different values and no reduce-only flag exists among the
submitted parameters. -/
def opensPosition (sideParam : ℕ) : Bool := sideParam == 1 || sideParam == 3

/-! ## Rounding helpers -/

/-- Round-half-to-even of a rational to an integer: the idealised
semantics of Python 3 `round`. -/
def rhe (x : ℚ) : ℤ :=
  let f := ⌊x⌋
  let r := x - f
  if r < 1 / 2 then f
  else if 1 / 2 < r then f + 1
  else if f % 2 = 0 then f else f + 1

/-- Python `round(x, n)` on exact rationals: half-to-even at n decimal
places. Used by the source fallbacks `round(qty, 3)` and
`round(tp_price, 2)`. -/
def pyRound (n : ℕ) (x : ℚ) : ℚ := (rhe (x * 10 ^ n) : ℚ) / 10 ^ n

/-- Modelled from the spec: the ccxt helper `amount_to_precision`, which
the repository does not contain. Spec section 4.3: the quantity is
"rounded down to instrument.quantityPrecision", so this floors at p
decimal places. -/
def amount_to_precision (p : ℕ) (x : ℚ) : ℚ := (⌊x * 10 ^ p⌋ : ℚ) / 10 ^ p

/-- Modelled from the spec: the ccxt helper `price_to_precision`, which
the repository does not contain. Spec section 4.5: the take-profit price
is "rounded to instrument price precision", so this rounds to nearest at
p decimal places (no claim depends on the tie direction). -/
def price_to_precision (p : ℕ) (x : ℚ) : ℚ := (round (x * 10 ^ p) : ℚ) / 10 ^ p

/-! ## Catalog, balance and environment models -/

/-- One entry of `exchange.markets`, projected to the fields the source
reads with `.get` (absent fields are `none`). -/
structure Market where
  type : Option String
  base : Option String
  quote : Option String
  id : Option String
deriving DecidableEq

/-- The swap-market search of src/app.py lines 222-230: the first catalog
entry whose type, base and quote match, together with its unified symbol
and (optional) venue id. The loop breaks at the first match even when
that match carries no usable id. -/
def findSwapMarket (markets : List (String × Market)) (base quote : String) :
    Option (String × Option String) :=
  (markets.find? (fun p =>
    p.2.type == some "swap" && p.2.base == some base && p.2.quote == some quote)).map
    (fun p => (p.1, p.2.id))

/-- One entry of the `info.data` list inside a raw balance response. -/
structure BalEntry where
  currency : Option String
  availableBalance : Option ℚ
  availableCash : Option ℚ
deriving DecidableEq

/-- A fetched balance payload, projected to the two places the source
probes: `bal["free"]["USDT"]` (when both keys exist) and the
`info.data` entry list. -/
structure BalResp where
  free_usdt : Option ℚ
  info_data : Option (List BalEntry)
deriving DecidableEq

/-- Python truthiness of an optional numeric: `None` and 0 are falsy. -/
def truthyNum : Option ℚ → Bool
  | none => false
  | some x => x ≠ 0

/-- Python `a or b or None` over optional numerics. -/
def pyOrNum (a b : Option ℚ) : Option ℚ :=
  if truthyNum a then a else if truthyNum b then b else none

/-- The USDT extraction of src/app.py lines 245-258: prefer
`bal["free"]["USDT"]`; otherwise find the first `info.data` entry with
currency "USDT" and take `availableBalance or availableCash or None`
(the loop breaks at that entry regardless of the value found). -/
def extractUsdtBal (bal : BalResp) : Option ℚ :=
  match bal.free_usdt with
  | some v => some v
  | none =>
    match bal.info_data with
    | none => none
    | some entries =>
      match entries.find? (fun e => e.currency == some "USDT") with
      | none => none
      | some e => pyOrNum e.availableBalance e.availableCash

/-- Outcome of the `fetch_balance` call: an exception (caught at line
263, answered with HTTP 500) or a decoded payload. -/
inductive BalFetch where
  | exc (msg : String)
  | ok (bal : BalResp)

/-- Process-wide configuration read from the environment at startup:
the API secret, RISK_RATIO and DEFAULT_LEVERAGE. -/
structure Config where
  secret : String
  riskRatio : ℚ
  defaultLeverage : ℕ

/-- The external world one webhook request observes: the loaded market
catalog, the balance-fetch outcome, whether the ccxt leverage call
raises, the precision ccxt reports for amounts and prices (`none` models
the helper raising, which triggers the source fallback rounding), and
the transport contexts of the entry and take-profit order submissions. -/
structure Env where
  markets : List (String × Market)
  balance : BalFetch
  leverageFails : Bool
  amountPrec : Option ℕ
  pricePrec : Option ℕ
  entryCtx : PlaceCtx
  tpCtx : PlaceCtx

/-- The `entry_price` JSON field: a number, or a string whose `float()`
parse outcome is given (`none` models `float` raising). -/
inductive EntryPrice where
  | num (q : ℚ)
  | str (s : String) (asFloat : Option ℚ)
deriving DecidableEq

/-- Python truthiness of the `entry_price` field. -/
def EntryPrice.truthy : EntryPrice → Bool
  | .num q => q ≠ 0
  | .str s _ => s ≠ ""

/-- The decoded webhook request body, projected to the three fields the
source reads. -/
structure Req where
  symbol : Option String
  side : Option String
  entry_price : Option EntryPrice
deriving DecidableEq

/-- Python truthiness of an optional string. -/
def truthyStr : Option String → Bool
  | none => false
  | some s => s ≠ ""

/-- The error messages the webhook returns, structured (each constructor
corresponds to one `jsonify({"error": ...})` site of the source). -/
inductive ErrMsg where
  | missingData
  | priceNotFloat
  | symbolFormat (coin : String)
  | swapNotFound (base quote : String)
  | balanceFail (e : String)
  | insufficient (b : Option ℚ)
  | qtyZero (q : ℚ)
  | entryFail (e : PlaceErr)
  | zeroDivision
deriving DecidableEq

/-- The webhook response body: an error object or the success object of
lines 329-337 (`tp_order` is `none` when the take-profit submission
failed). -/
inductive WebhookResp where
  | err (m : ErrMsg)
  | success (market_id : String) (qty : ℚ) (open_order : VenueData) (tp_order : Option VenueData)
deriving DecidableEq

/-- The sizing block of src/app.py lines 279-287: raw quantity
`balance * RISK_RATIO * DEFAULT_LEVERAGE / entry_price`, rejected when
not positive, then `amount_to_precision` with fallback `round(qty, 3)`
when the helper raises. -/
def computeQty (cfg : Config) (usdt_bal entry_price : ℚ) (amountPrec : Option ℕ) : Option ℚ :=
  let qty := usdt_bal * cfg.riskRatio * (cfg.defaultLeverage : ℚ) / entry_price
  if qty ≤ 0 then none
  else some (match amountPrec with
    | some p => amount_to_precision p qty
    | none => pyRound 3 qty)

/-- The take-profit price of lines 306-313: `entry * 1.004` for long,
`entry * 0.996` for short, then `price_to_precision` with fallback
`round(tp_price, 2)`. -/
def tpPrice (entry : ℚ) (is_long : Bool) (pricePrec : Option ℕ) : ℚ :=
  let tp := entry * (if is_long then 1004 / 1000 else 996 / 1000)
  match pricePrec with
  | some p => price_to_precision p tp
  | none => pyRound 2 tp

/-- The `is_long` flag of src/app.py line 270: the stripped, lower-cased
side compared to "long". This single flag selects the leverage position
type, the take-profit price direction and the take-profit side. -/
def isLongSide (side : String) : Bool := pyLower (pyStrip side) = "long"

/-- src/app.py lines 269-337, from the leverage call onward: the
leverage attempt (non-fatal, line 275 catches and logs), sizing, the
entry market order (fatal on failure, line 304 returns HTTP 500), the
take-profit limit order (non-fatal, line 327 catches and logs), and the
success response. The caller prepends the balance-fetch call to the
returned trace. A zero entry price would raise ZeroDivisionError out of
the sizing line into the outer handler of line 339. -/
def afterBalance (cfg : Config) (env : Env) (side : String) (entry_price : ℚ)
    (market_id : String) (usdt_bal : ℚ) : (ℕ × WebhookResp) × List Call :=
  let is_long := isLongSide side
  let levCall := Call.setLeverage cfg.defaultLeverage 1 (if is_long then 1 else 2)
    (!env.leverageFails)
  if entry_price = 0 then ((500, .err .zeroDivision), [levCall])
  else
    match computeQty cfg usdt_bal entry_price env.amountPrec with
    | none =>
      ((400, .err (.qtyZero (usdt_bal * cfg.riskRatio * (cfg.defaultLeverage : ℚ) / entry_price))),
       [levCall])
    | some qty =>
      let entry := place_mexc_futures_order cfg.secret env.entryCtx market_id side qty none
        cfg.defaultLeverage
      match entry.result with
      | .err e =>
        ((500, .err (.entryFail e)), levCall :: .placeAttempt market_id side :: entry.posts)
      | .ok open_resp =>
        let tp_price := tpPrice entry_price is_long env.pricePrec
        let tp_side := if is_long then "Short" else "Long"
        let tp := place_mexc_futures_order cfg.secret env.tpCtx market_id tp_side qty
          (some tp_price) cfg.defaultLeverage
        let tp_resp : Option VenueData := match tp.result with
          | .ok d => some d
          | .err _ => none
        ((200, .success market_id qty open_resp tp_resp),
         levCall :: .placeAttempt market_id side :: entry.posts ++
           .placeAttempt market_id tp_side :: tp.posts)

/-- Embedding of the `/webhook` handler (src/app.py lines 167-342):
field-presence truthiness check, entry-price float conversion, suffix
strip and USDT symbol parse, swap-market resolution (no spot fallback),
balance fetch and USDT extraction, then `afterBalance`. The returned
trace lists the outbound calls in order. -/
def webhook (cfg : Config) (env : Env) (req : Req) : (ℕ × WebhookResp) × List Call :=
  if ¬ (truthyStr req.symbol ∧ truthyStr req.side ∧
        (req.entry_price.map EntryPrice.truthy).getD false) then
    ((400, .err .missingData), [])
  else
    match req.symbol, req.side, req.entry_price with
    | some coin, some side, some ep =>
      let epFloat : Option ℚ := match ep with
        | .num q => some q
        | .str _ f => f
      match epFloat with
      | none => ((400, .err .priceNotFloat), [])
      | some entry_price =>
        let coin_raw := headBeforeDot (pyUpper coin)
        if ¬ pyEndsWith coin_raw "USDT" then ((400, .err (.symbolFormat coin)), [])
        else
          let base := pyDropRight coin_raw 4
          match findSwapMarket env.markets base "USDT" with
          | none => ((400, .err (.swapNotFound base "USDT")), [])
          | some (_, oid) =>
            match oid with
            | none => ((400, .err (.swapNotFound base "USDT")), [])
            | some market_id =>
              if market_id = "" then ((400, .err (.swapNotFound base "USDT")), [])
              else
                match env.balance with
                | .exc m => ((500, .err (.balanceFail m)), [.fetchBalance])
                | .ok bal =>
                  match extractUsdtBal bal with
                  | none => ((400, .err (.insufficient none)), [.fetchBalance])
                  | some b =>
                    if b ≤ 0 then ((400, .err (.insufficient (some b))), [.fetchBalance])
                    else
                      let r := afterBalance cfg env side entry_price market_id b
                      (r.1, .fetchBalance :: r.2)
    | _, _, _ => ((400, .err .missingData), [])

/-! ## Trace predicates -/

def Call.isSetLev : Call → Bool
  | .setLeverage _ _ _ _ => true
  | _ => false

def Call.isOrderPost : Call → Bool
  | .orderPost _ _ _ _ _ => true
  | _ => false

def Call.isPlaceAttempt : Call → Bool
  | .placeAttempt _ _ => true
  | _ => false

/-- Number of order-function invocations recorded in a trace. -/
def countPlaceAttempts (tr : List Call) : ℕ := (tr.filter Call.isPlaceAttempt).length

/-- Number of outbound order HTTP POSTs recorded in a trace. -/
def countOrderPosts (tr : List Call) : ℕ := (tr.filter Call.isOrderPost).length

/-- No leverage call occurs after any order POST. -/
def noLevAfterOrder : List Call → Bool
  | [] => true
  | .orderPost _ _ _ _ _ :: rest => rest.all (fun c => ! c.isSetLev)
  | _ :: rest => noLevAfterOrder rest

/-- Every order POST is preceded by a leverage call (the flag tracks
whether one has been seen so far). -/
def postsAfterLev : List Call → Bool → Bool
  | [], _ => true
  | c :: rest, seen => (!c.isOrderPost || seen) && postsAfterLev rest (seen || c.isSetLev)

/-- The leverage call precedes every order POST and never follows one. -/
def levBeforeOrders (tr : List Call) : Bool :=
  noLevAfterOrder tr && postsAfterLev tr false

/-- Erase the observed leverage outcome from a trace cell, to compare
traces across environments that differ only in that outcome. -/
def stripLev : Call → Call
  | .setLeverage l o p _ => .setLeverage l o p true
  | c => c

/-! ## Structural lemmas about the order client -/

theorem placeCore_posts (secret : String) (ctx : PlaceCtx) (symbol : String) (quantity : ℚ)
    (price : Option ℚ) (leverage sp pt : ℕ) :
    (placeCore secret ctx symbol quantity price leverage sp pt).posts =
      [Call.orderPost symbol sp pt quantity price] := by
  unfold placeCore
  rcases ctx.transport 0 with _ | ⟨st, b⟩
  · rfl
  · dsimp only
    split
    · rfl
    · split <;> rfl

theorem placeCore_timeout (secret : String) (ctx : PlaceCtx) (symbol : String) (quantity : ℚ)
    (price : Option ℚ) (leverage sp pt : ℕ) (h : ctx.transport 0 = .timeout) :
    (placeCore secret ctx symbol quantity price leverage sp pt).result = .err .transport := by
  unfold placeCore
  rw [h]

/-- On a valid side, the order client posts exactly once. -/
theorem place_posts_valid (secret : String) (ctx : PlaceCtx) (symbol side : String)
    (quantity : ℚ) (price : Option ℚ) (leverage : ℕ)
    (h : pyLower (pyStrip side) = "long" ∨ pyLower (pyStrip side) = "short") :
    (place_mexc_futures_order secret ctx symbol side quantity price leverage).posts =
      [Call.orderPost symbol (if pyLower (pyStrip side) = "long" then 1 else 3)
        (if pyLower (pyStrip side) = "long" then 1 else 2) quantity price] := by
  unfold place_mexc_futures_order
  rcases h with h | h <;> simp [h, placeCore_posts]

/-- The order client posts at most once, whatever the side. -/
theorem place_posts_shape (secret : String) (ctx : PlaceCtx) (symbol side : String)
    (quantity : ℚ) (price : Option ℚ) (leverage : ℕ) :
    (place_mexc_futures_order secret ctx symbol side quantity price leverage).posts = [] ∨
    ∃ sp pt, (place_mexc_futures_order secret ctx symbol side quantity price leverage).posts =
      [Call.orderPost symbol sp pt quantity price] := by
  unfold place_mexc_futures_order
  by_cases h1 : pyLower (pyStrip side) = "long"
  · exact Or.inr ⟨1, 1, by simp [h1, placeCore_posts]⟩
  · by_cases h2 : pyLower (pyStrip side) = "short"
    · exact Or.inr ⟨3, 2, by simp [h1, h2, placeCore_posts]⟩
    · exact Or.inl (by simp [h1, h2])

/-! ## Claim C1: retry policy -/

/-- C1 (amended): each order submission makes exactly one outbound HTTP
call — there is no retry loop, no backoff — and a transport timeout is
surfaced immediately as a terminal transport error after that single
call, so a run of consecutive timeouts can never cause more than one
call per submission nor an infinite loop. -/
theorem C1_retry_budget (secret : String) (ctx : PlaceCtx) (symbol side : String)
    (quantity : ℚ) (price : Option ℚ) (leverage : ℕ)
    (h : pyLower (pyStrip side) = "long" ∨ pyLower (pyStrip side) = "short") :
    (place_mexc_futures_order secret ctx symbol side quantity price leverage).posts.length = 1 ∧
    (ctx.transport 0 = .timeout →
      (place_mexc_futures_order secret ctx symbol side quantity price leverage).result =
        .err .transport) := by
  constructor
  · rw [place_posts_valid secret ctx symbol side quantity price leverage h]
    rfl
  · intro ht
    unfold place_mexc_futures_order
    rcases h with h | h <;> simp only [h, if_pos, if_neg, reduceIte] <;>
      exact placeCore_timeout _ _ _ _ _ _ _ _ ht

/-- C1 counterexample: with the transport timing out on every call (in
particular more than three consecutive timeouts are available), the
claimed three attempts do not happen: exactly one outbound call is made
and the transport error is terminal. -/
theorem C1_retry_budget_cex :
    (place_mexc_futures_order "k" ⟨"1", "u", fun _ => .timeout⟩ "ETH_USDT" "Long" 1 none
      25).posts.length = 1 ∧
    (place_mexc_futures_order "k" ⟨"1", "u", fun _ => .timeout⟩ "ETH_USDT" "Long" 1 none
      25).result = .err .transport ∧
    (1 : ℕ) ≠ 3 := by decide

/-- C1 witness: the amended theorem applied at a concrete timing-out
transport. -/
theorem C1_retry_budget_witness :
    (place_mexc_futures_order "k" ⟨"t", "u", fun _ => .timeout⟩ "BTC_USDT" "Long" 2 none
      5).posts.length = 1 ∧
    (place_mexc_futures_order "k" ⟨"t", "u", fun _ => .timeout⟩ "BTC_USDT" "Long" 2 none
      5).result = .err .transport :=
  ⟨(C1_retry_budget "k" ⟨"t", "u", fun _ => .timeout⟩ "BTC_USDT" "Long" 2 none 5
      (Or.inl (by decide))).1,
   (C1_retry_budget "k" ⟨"t", "u", fun _ => .timeout⟩ "BTC_USDT" "Long" 2 none 5
      (Or.inl (by decide))).2 rfl⟩

/-! ## Claim C4: definition of submission success -/

/-- C4 (amended): an order submission is treated as successful iff the
HTTP status is exactly 200 (other 2xx statuses are raised as HTTP
errors) and the decoded body either carries a true success flag or a
code field equal to "0"; a 200 body with neither is raised immediately
as a venue rejection, and there is no transport-retry mechanism for it
to consume. -/
theorem C4_success_definition (secret : String) (ctx : PlaceCtx) (symbol side : String)
    (quantity : ℚ) (price : Option ℚ) (leverage st : ℕ) (b : VenueBody)
    (hside : pyLower (pyStrip side) = "long" ∨ pyLower (pyStrip side) = "short")
    (htr : ctx.transport 0 = .resp st b) :
    ((∃ d, (place_mexc_futures_order secret ctx symbol side quantity price leverage).result =
        .ok d) ↔
      st = 200 ∧ (b.success.getD false = true ∨ b.code = some "0")) ∧
    (place_mexc_futures_order secret ctx symbol side quantity price leverage).posts.length = 1 := by
  refine ⟨?_, by rw [place_posts_valid secret ctx symbol side quantity price leverage hside]; rfl⟩
  have core : ∀ sp pt, ((∃ d, (placeCore secret ctx symbol quantity price leverage sp pt).result =
      .ok d) ↔ st = 200 ∧ (b.success.getD false = true ∨ b.code = some "0")) := by
    intro sp pt
    unfold placeCore
    rw [htr]
    by_cases hst : st = 200
    · subst hst
      by_cases hs : b.success.getD false
      · simp [hs]
      · by_cases hc : b.code = some "0" <;> simp [hs, hc]
    · simp [hst]
  unfold place_mexc_futures_order
  rcases hside with h | h <;> simp only [h, reduceIte] <;>
    first
      | exact core 1 1
      | exact core 3 2

/-- C4 counterexample: an HTTP 200 response whose body carries no
success flag at all but has code "0" is treated as a success and
returned, where the claim requires a logical failure
(OrderRejectedError) whenever the success flag is absent. -/
theorem C4_success_definition_cex :
    (place_mexc_futures_order "k" ⟨"t", "u", fun _ => .resp 200 ⟨none, some "0", none⟩⟩
      "ETH_USDT" "Long" 1 none 25).result = .ok (.whole ⟨none, some "0", none⟩) ∧
    (VenueBody.mk none (some "0") none).success = none := by decide

/-- C4 witness: the amended theorem applied at a concrete non-200
response. -/
theorem C4_success_definition_witness :
    ((∃ d, (place_mexc_futures_order "k" ⟨"t", "u", fun _ => .resp 500 ⟨some true, none, none⟩⟩
        "BTC_USDT" "Short" 2 none 5).result = .ok d) ↔
      (500 = 200 ∧ ((VenueBody.mk (some true) none none).success.getD false = true ∨
        (VenueBody.mk (some true) none none).code = some "0"))) ∧
    (place_mexc_futures_order "k" ⟨"t", "u", fun _ => .resp 500 ⟨some true, none, none⟩⟩
      "BTC_USDT" "Short" 2 none 5).posts.length = 1 :=
  C4_success_definition "k" ⟨"t", "u", fun _ => .resp 500 ⟨some true, none, none⟩⟩
    "BTC_USDT" "Short" 2 none 5 500 ⟨some true, none, none⟩ (Or.inr (by decide)) rfl

/-! ## Claim C6: the signing protocol -/

/-- C6: for every parameter dictionary, the signature equals the
spec-worded protocol — parameters sorted by key, concatenated as
key=value pairs joined by ampersands with empty-valued parameters
omitted, HMAC-SHA256 under the account secret — and the order client
attaches exactly that hex digest as an additional sign parameter on the
body it sends. -/
theorem C6_signing_protocol (secret : String) (params : List (String × PyVal)) (ctx : PlaceCtx)
    (symbol : String) (q : ℚ) (price : Option ℚ) (lev sp pt : ℕ) :
    sign_request secret params = spec_signature secret params ∧
    (placeCore secret ctx symbol q price lev sp pt).sentBody =
      some (placeParams ctx symbol q price lev sp pt ++
        [("sign", PyVal.str (spec_signature secret (placeParams ctx symbol q price lev sp pt)))]) := by
  have hsig : ∀ ps : List (String × PyVal), sign_request secret ps = spec_signature secret ps := by
    intro ps
    unfold sign_request spec_signature
    have hfil : ∀ l : List (String × PyVal),
        l.filter (fun kv => !(decide (kv.2 = PyVal.str ""))) =
          l.filter (fun kv => !(isEmptyValued kv.2)) := by
      intro l
      refine List.filter_congr ?_
      rintro ⟨k, v⟩ _
      rcases v with s | i <;> simp [isEmptyValued]
    dsimp only
    rw [hfil]
  refine ⟨hsig params, ?_⟩
  rw [← hsig]
  unfold placeCore
  rcases htr : ctx.transport 0 with _ | ⟨st, b⟩
  · rfl
  · dsimp only
    split
    · rfl
    · split <;> rfl

/-! ## Reach lemmas for the webhook pipeline -/

/-- A request that passes validation, symbol parsing, swap resolution
and the balance stage reaches the post-balance pipeline, with the
balance fetch recorded first in the trace. -/
theorem webhook_to_afterBalance (cfg : Config) (env : Env) (coin side : String) (ep : ℚ)
    (u mid : String) (bal : BalResp) (bq : ℚ)
    (hcoin : coin ≠ "") (hside : side ≠ "") (hep : ep ≠ 0)
    (hsuffix : pyEndsWith (headBeforeDot (pyUpper coin)) "USDT" = true)
    (hfind : findSwapMarket env.markets (pyDropRight (headBeforeDot (pyUpper coin)) 4) "USDT" =
      some (u, some mid))
    (hmid : mid ≠ "")
    (hbal : env.balance = .ok bal)
    (hext : extractUsdtBal bal = some bq) (hbq : ¬ bq ≤ 0) :
    webhook cfg env ⟨some coin, some side, some (.num ep)⟩ =
      ((afterBalance cfg env side ep mid bq).1,
        .fetchBalance :: (afterBalance cfg env side ep mid bq).2) := by
  unfold webhook
  simp [truthyStr, EntryPrice.truthy, hcoin, hside, hep, hsuffix, hfind, hbal, hext, hmid, hbq]

/-! ## Sample fixtures for ground evaluation -/

/-- A transport context whose every call times out. -/
def timeoutCtx : PlaceCtx := ⟨"ts", "oid", fun _ => .timeout⟩

/-- A transport context whose every call succeeds with a standard
success body. -/
def okCtx : PlaceCtx := ⟨"ts", "oid", fun _ => .resp 200 ⟨some true, some "0", some "d1"⟩⟩

/-- A catalog holding only a spot BTC/USDT entry and no swap entry. -/
def spotOnlyMarkets : List (String × Market) :=
  [("BTC/USDT", ⟨some "spot", some "BTC", some "USDT", some "BTCUSDT"⟩)]

/-- An environment whose catalog is `spotOnlyMarkets`. -/
def envSpotOnly : Env := ⟨spotOnlyMarkets, .ok ⟨some 50, none⟩, false, some 3, some 2,
  timeoutCtx, timeoutCtx⟩

/-! ## Claim C5: swap resolution and the (absent) spot fallback -/

/-- C5 (amended): resolution searches the cached catalog for the first
entry whose type is swap with matching base and quote assets; when no
such entry yields a usable id the webhook fails outright with the
400 swap-not-found error and makes no outbound call — there is no spot
fallback. -/
theorem C5_no_spot_fallback (cfg : Config) (env : Env) (coin side : String) (ep : ℚ)
    (hcoin : coin ≠ "") (hside : side ≠ "") (hep : ep ≠ 0)
    (hsuffix : pyEndsWith (headBeforeDot (pyUpper coin)) "USDT" = true)
    (hfind : findSwapMarket env.markets (pyDropRight (headBeforeDot (pyUpper coin)) 4) "USDT" =
      none) :
    (∀ base quote : String, findSwapMarket env.markets base quote =
      (env.markets.find? (fun pr => pr.2.type == some "swap" && pr.2.base == some base &&
        pr.2.quote == some quote)).map (fun pr => (pr.1, pr.2.id))) ∧
    webhook cfg env ⟨some coin, some side, some (.num ep)⟩ =
      ((400, .err (.swapNotFound (pyDropRight (headBeforeDot (pyUpper coin)) 4) "USDT")), []) := by
  refine ⟨fun base quote => rfl, ?_⟩
  unfold webhook
  simp [truthyStr, EntryPrice.truthy, hcoin, hside, hep, hsuffix, hfind]

/-- C5 counterexample: a catalog that contains a matching spot entry but
no swap entry does not trigger any spot fallback — the request fails
outright at resolution with a 400 swap-not-found error, where the claim
requires resolution to fall back to the spot match. -/
theorem C5_no_spot_fallback_cex :
    (spotOnlyMarkets.find? (fun pr => pr.2.type == some "spot" && pr.2.base == some "BTC" &&
      pr.2.quote == some "USDT")).isSome = true ∧
    findSwapMarket spotOnlyMarkets "BTC" "USDT" = none ∧
    webhook ⟨"k", 1, 2⟩ envSpotOnly ⟨some "BTCUSDT", some "Short", some (.num 5)⟩ =
      ((400, .err (.swapNotFound "BTC" "USDT")), []) := by decide

/-- C5 witness: the amended theorem applied at the spot-only catalog. -/
theorem C5_no_spot_fallback_witness :
    webhook ⟨"k", 1, 2⟩ envSpotOnly ⟨some "BTCUSDT", some "Long", some (.num 10)⟩ =
      ((400, .err (.swapNotFound "BTC" "USDT")), []) := by
  have h := (C5_no_spot_fallback ⟨"k", 1, 2⟩ envSpotOnly "BTCUSDT" "Long" 10
    (by decide) (by decide) (by decide) (by decide) (by decide)).2
  have hname : pyDropRight (headBeforeDot (pyUpper "BTCUSDT")) 4 = "BTC" := by decide
  rw [hname] at h
  exact h

/-! ## Claim C2: position sizing -/

/-- C2 (amended): for positive balance, risk ratio, leverage and price,
when the exchange precision helper succeeds the submitted quantity is
(B * R * L) / P floored at the instrument quantity precision, hence
never greater than the unrounded value; when the helper raises, the
source falls back to Python round(qty, 3), which rounds half-to-even
and can exceed the unrounded value. -/
theorem C2_floor_sizing (secret : String) (R : ℚ) (L : ℕ) (B P : ℚ) (p : ℕ)
    (hB : 0 < B) (hR : 0 < R) (hL : 0 < L) (hP : 0 < P) :
    computeQty ⟨secret, R, L⟩ B P (some p) =
      some (amount_to_precision p (B * R * (L : ℚ) / P)) ∧
    amount_to_precision p (B * R * (L : ℚ) / P) ≤ B * R * (L : ℚ) / P ∧
    computeQty ⟨secret, R, L⟩ B P none = some (pyRound 3 (B * R * (L : ℚ) / P)) := by
  have hL2 : (0 : ℚ) < L := by exact_mod_cast hL
  have hq : 0 < B * R * (L : ℚ) / P := div_pos (mul_pos (mul_pos hB hR) hL2) hP
  refine ⟨?_, ?_, ?_⟩
  · unfold computeQty
    rw [if_neg (not_le.mpr hq)]
  · unfold amount_to_precision
    have h10 : (0 : ℚ) < 10 ^ p := by positivity
    rw [div_le_iff₀ h10]
    exact Int.floor_le _
  · unfold computeQty
    rw [if_neg (not_le.mpr hq)]

unseal Rat.mul Rat.inv Rat.add Rat.sub in
/-- C2 counterexample: in the fallback path (precision helper raising),
a raw quantity of 0.0015 is rounded to 0.002, strictly above the
unrounded (B * R * L) / P, refuting the floor-rounding invariant as
claimed. -/
theorem C2_floor_sizing_cex :
    (3 : ℚ) / 2000 * 1 * 1 / 1 = 3 / 2000 ∧
    computeQty ⟨"k", 1, 1⟩ (3 / 2000) 1 none = some (2 / 1000) ∧
    ¬ ((2 : ℚ) / 1000 ≤ 3 / 2000) := by
  refine ⟨by norm_num, by decide, by norm_num⟩

/-- C2 witness: the amended theorem applied at concrete positive
inputs. -/
theorem C2_floor_sizing_witness :
    (0 : ℚ) < 1 ∧
    (computeQty ⟨"k", 1, 1⟩ 1 2 (some 1) =
        some (amount_to_precision 1 ((1 : ℚ) * 1 * ((1 : ℕ) : ℚ) / 2)) ∧
      amount_to_precision 1 ((1 : ℚ) * 1 * ((1 : ℕ) : ℚ) / 2) ≤ (1 : ℚ) * 1 * ((1 : ℕ) : ℚ) / 2 ∧
      computeQty ⟨"k", 1, 1⟩ 1 2 none = some (pyRound 3 ((1 : ℚ) * 1 * ((1 : ℕ) : ℚ) / 2))) :=
  ⟨by norm_num,
   C2_floor_sizing "k" 1 1 1 2 1 (by norm_num) (by norm_num) (by norm_num) (by norm_num)⟩

/-! ## Unfolding lemmas for the post-balance pipeline -/

/-- The take-profit invocation of src/app.py lines 317-323, as a single
value: opposite side of the entry, same quantity, limit price at the
derived take-profit price. -/
def tpAttempt (cfg : Config) (env : Env) (side mid : String) (ep qty : ℚ) : PlaceOut :=
  place_mexc_futures_order cfg.secret env.tpCtx mid
    (if isLongSide side then "Short" else "Long") qty
    (some (tpPrice ep (isLongSide side) env.pricePrec)) cfg.defaultLeverage

/-- An unrecognised side raises before any outbound call. -/
theorem place_invalid_side (secret : String) (ctx : PlaceCtx) (symbol side : String)
    (quantity : ℚ) (price : Option ℚ) (leverage : ℕ)
    (h1 : pyLower (pyStrip side) ≠ "long") (h2 : pyLower (pyStrip side) ≠ "short") :
    place_mexc_futures_order secret ctx symbol side quantity price leverage =
      ⟨.err (.badSide side), [], none⟩ := by
  unfold place_mexc_futures_order
  simp [h1, h2]

/-- A successful order result implies the side was recognised. -/
theorem place_ok_side (secret : String) (ctx : PlaceCtx) (symbol side : String)
    (quantity : ℚ) (price : Option ℚ) (leverage : ℕ) (od : VenueData)
    (h : (place_mexc_futures_order secret ctx symbol side quantity price leverage).result =
      .ok od) :
    pyLower (pyStrip side) = "long" ∨ pyLower (pyStrip side) = "short" := by
  by_cases h1 : pyLower (pyStrip side) = "long"
  · exact Or.inl h1
  · by_cases h2 : pyLower (pyStrip side) = "short"
    · exact Or.inr h2
    · rw [place_invalid_side secret ctx symbol side quantity price leverage h1 h2] at h
      exact absurd h (by simp)

/-- Post-balance pipeline when the entry order submission fails. -/
theorem afterBalance_entry_err (cfg : Config) (env : Env) (side : String) (ep : ℚ)
    (mid : String) (bq qty : ℚ) (e : PlaceErr)
    (hep : ep ≠ 0)
    (hqty : computeQty cfg bq ep env.amountPrec = some qty)
    (hentry : (place_mexc_futures_order cfg.secret env.entryCtx mid side qty none
      cfg.defaultLeverage).result = .err e) :
    afterBalance cfg env side ep mid bq =
      ((500, .err (.entryFail e)),
        .setLeverage cfg.defaultLeverage 1 (if isLongSide side then 1 else 2)
            (!env.leverageFails) ::
          .placeAttempt mid side ::
          (place_mexc_futures_order cfg.secret env.entryCtx mid side qty none
            cfg.defaultLeverage).posts) := by
  unfold afterBalance
  rw [if_neg hep, hqty]
  simp [hentry]

/-- Post-balance pipeline when the entry order submission succeeds. -/
theorem afterBalance_entry_ok (cfg : Config) (env : Env) (side : String) (ep : ℚ)
    (mid : String) (bq qty : ℚ) (od : VenueData)
    (hep : ep ≠ 0)
    (hqty : computeQty cfg bq ep env.amountPrec = some qty)
    (hentry : (place_mexc_futures_order cfg.secret env.entryCtx mid side qty none
      cfg.defaultLeverage).result = .ok od) :
    afterBalance cfg env side ep mid bq =
      ((200, .success mid qty od
          (match (tpAttempt cfg env side mid ep qty).result with
            | .ok d => some d
            | .err _ => none)),
        .setLeverage cfg.defaultLeverage 1 (if isLongSide side then 1 else 2)
            (!env.leverageFails) ::
          .placeAttempt mid side ::
          (place_mexc_futures_order cfg.secret env.entryCtx mid side qty none
              cfg.defaultLeverage).posts ++
            .placeAttempt mid (if isLongSide side then "Short" else "Long") ::
              (tpAttempt cfg env side mid ep qty).posts) := by
  unfold afterBalance tpAttempt
  rw [if_neg hep, hqty]
  simp [hentry]

/-- The take-profit submission always posts exactly once, with the
opposite side code and position type of the entry and the same
quantity. -/
theorem tpAttempt_posts (cfg : Config) (env : Env) (side mid : String) (ep qty : ℚ) :
    (tpAttempt cfg env side mid ep qty).posts =
      [Call.orderPost mid (if isLongSide side then 3 else 1) (if isLongSide side then 2 else 1)
        qty (some (tpPrice ep (isLongSide side) env.pricePrec))] := by
  unfold tpAttempt
  by_cases hil : isLongSide side
  · rw [hil]
    simp only [reduceIte]
    rw [place_posts_valid cfg.secret env.tpCtx mid "Short" qty
      (some (tpPrice ep true env.pricePrec)) cfg.defaultLeverage (Or.inr (by decide))]
    simp only [if_neg (show ¬ pyLower (pyStrip "Short") = "long" by decide)]
  · rw [Bool.not_eq_true] at hil
    rw [hil]
    simp only [if_neg Bool.false_ne_true]
    rw [place_posts_valid cfg.secret env.tpCtx mid "Long" qty
      (some (tpPrice ep false env.pricePrec)) cfg.defaultLeverage (Or.inl (by decide))]
    simp only [if_pos (show pyLower (pyStrip "Long") = "long" by decide)]

/-! ## Claim C8: entry failure is fatal, no exit attempted -/

/-- C8: whenever the entry order submission fails, the webhook answers
HTTP 500 with the entry-failure error and the take-profit order function
is never invoked: the trace holds exactly one order-function
invocation. -/
theorem C8_entry_failure_fatal (cfg : Config) (env : Env) (coin side : String) (ep : ℚ)
    (u mid : String) (bal : BalResp) (bq qty : ℚ) (e : PlaceErr)
    (hcoin : coin ≠ "") (hside : side ≠ "") (hep : ep ≠ 0)
    (hsuffix : pyEndsWith (headBeforeDot (pyUpper coin)) "USDT" = true)
    (hfind : findSwapMarket env.markets (pyDropRight (headBeforeDot (pyUpper coin)) 4) "USDT" =
      some (u, some mid))
    (hmid : mid ≠ "")
    (hbal : env.balance = .ok bal)
    (hext : extractUsdtBal bal = some bq) (hbq : ¬ bq ≤ 0)
    (hqty : computeQty cfg bq ep env.amountPrec = some qty)
    (hentry : (place_mexc_futures_order cfg.secret env.entryCtx mid side qty none
      cfg.defaultLeverage).result = .err e) :
    webhook cfg env ⟨some coin, some side, some (.num ep)⟩ =
      ((500, .err (.entryFail e)),
        .fetchBalance ::
          .setLeverage cfg.defaultLeverage 1 (if isLongSide side then 1 else 2)
            (!env.leverageFails) ::
          .placeAttempt mid side ::
          (place_mexc_futures_order cfg.secret env.entryCtx mid side qty none
            cfg.defaultLeverage).posts) ∧
    countPlaceAttempts (webhook cfg env ⟨some coin, some side, some (.num ep)⟩).2 = 1 := by
  have hw := webhook_to_afterBalance cfg env coin side ep u mid bal bq hcoin hside hep hsuffix
    hfind hmid hbal hext hbq
  have ha := afterBalance_entry_err cfg env side ep mid bq qty e hep hqty hentry
  rw [hw, ha]
  refine ⟨rfl, ?_⟩
  rcases place_posts_shape cfg.secret env.entryCtx mid side qty none cfg.defaultLeverage with
    hp | ⟨sp, pt, hp⟩ <;> rw [hp] <;> rfl

/-! ## Claim C7: take-profit failure is non-fatal -/

/-- C7: whenever the entry order succeeds and the take-profit submission
fails, the webhook still answers HTTP 200 (never 500) with open_order
populated and tp_order null, the entry is not rolled back, and exactly
the two order invocations (entry and take-profit) appear in the
trace. -/
theorem C7_tp_failure_nonfatal (cfg : Config) (env : Env) (coin side : String) (ep : ℚ)
    (u mid : String) (bal : BalResp) (bq qty : ℚ) (od : VenueData) (e : PlaceErr)
    (hcoin : coin ≠ "") (hside : side ≠ "") (hep : ep ≠ 0)
    (hsuffix : pyEndsWith (headBeforeDot (pyUpper coin)) "USDT" = true)
    (hfind : findSwapMarket env.markets (pyDropRight (headBeforeDot (pyUpper coin)) 4) "USDT" =
      some (u, some mid))
    (hmid : mid ≠ "")
    (hbal : env.balance = .ok bal)
    (hext : extractUsdtBal bal = some bq) (hbq : ¬ bq ≤ 0)
    (hqty : computeQty cfg bq ep env.amountPrec = some qty)
    (hentry : (place_mexc_futures_order cfg.secret env.entryCtx mid side qty none
      cfg.defaultLeverage).result = .ok od)
    (htp : (tpAttempt cfg env side mid ep qty).result = .err e) :
    (webhook cfg env ⟨some coin, some side, some (.num ep)⟩).1 =
      (200, .success mid qty od none) ∧
    (webhook cfg env ⟨some coin, some side, some (.num ep)⟩).1.1 ≠ 500 ∧
    countPlaceAttempts (webhook cfg env ⟨some coin, some side, some (.num ep)⟩).2 = 2 := by
  have hw := webhook_to_afterBalance cfg env coin side ep u mid bal bq hcoin hside hep hsuffix
    hfind hmid hbal hext hbq
  have ha := afterBalance_entry_ok cfg env side ep mid bq qty od hep hqty hentry
  have hvalid := place_ok_side cfg.secret env.entryCtx mid side qty none cfg.defaultLeverage
    od hentry
  rw [hw, ha, htp]
  refine ⟨rfl, by simp, ?_⟩
  rw [place_posts_valid cfg.secret env.entryCtx mid side qty none cfg.defaultLeverage hvalid,
    tpAttempt_posts]
  rfl

/-! ## Claim C3: take-profit price, side and (absent) reduce-only -/

/-- C3 (amended): for every successful entry, the take-profit price is
entryPrice times (1 + 0.004) for a long and (1 - 0.004) for a short,
rounded to the instrument price precision (fallback: round to 2
decimals), and the exit order is the opposite side of the entry with the
same quantity — but it is submitted with the venue open-position side
codes (1 = open long, 3 = open short) and the opposite position type,
with no reduce-only flag: rather than closing the entry position it
opens an opposite one. -/
theorem C3_tp_derivation (cfg : Config) (env : Env) (coin side : String) (ep : ℚ)
    (u mid : String) (bal : BalResp) (bq qty : ℚ) (od : VenueData)
    (hcoin : coin ≠ "") (hside : side ≠ "") (hep : ep ≠ 0)
    (hsuffix : pyEndsWith (headBeforeDot (pyUpper coin)) "USDT" = true)
    (hfind : findSwapMarket env.markets (pyDropRight (headBeforeDot (pyUpper coin)) 4) "USDT" =
      some (u, some mid))
    (hmid : mid ≠ "")
    (hbal : env.balance = .ok bal)
    (hext : extractUsdtBal bal = some bq) (hbq : ¬ bq ≤ 0)
    (hqty : computeQty cfg bq ep env.amountPrec = some qty)
    (hentry : (place_mexc_futures_order cfg.secret env.entryCtx mid side qty none
      cfg.defaultLeverage).result = .ok od) :
    webhook cfg env ⟨some coin, some side, some (.num ep)⟩ =
      ((200, .success mid qty od
          (match (tpAttempt cfg env side mid ep qty).result with
            | .ok d => some d
            | .err _ => none)),
        [.fetchBalance,
         .setLeverage cfg.defaultLeverage 1 (if isLongSide side then 1 else 2)
           (!env.leverageFails),
         .placeAttempt mid side,
         .orderPost mid (if isLongSide side then 1 else 3) (if isLongSide side then 1 else 2)
           qty none,
         .placeAttempt mid (if isLongSide side then "Short" else "Long"),
         .orderPost mid (if isLongSide side then 3 else 1) (if isLongSide side then 2 else 1)
           qty (some (tpPrice ep (isLongSide side) env.pricePrec))]) ∧
    tpPrice ep (isLongSide side) env.pricePrec =
      (match env.pricePrec with
        | some p => price_to_precision p
            (ep * (if isLongSide side then 1 + 4 / 1000 else 1 - 4 / 1000))
        | none => pyRound 2 (ep * (if isLongSide side then 1 + 4 / 1000 else 1 - 4 / 1000))) ∧
    opensPosition (if isLongSide side then 3 else 1) = true := by
  have hw := webhook_to_afterBalance cfg env coin side ep u mid bal bq hcoin hside hep hsuffix
    hfind hmid hbal hext hbq
  have ha := afterBalance_entry_ok cfg env side ep mid bq qty od hep hqty hentry
  have hvalid := place_ok_side cfg.secret env.entryCtx mid side qty none cfg.defaultLeverage
    od hentry
  refine ⟨?_, ?_, ?_⟩
  · rw [hw, ha,
      place_posts_valid cfg.secret env.entryCtx mid side qty none cfg.defaultLeverage hvalid,
      tpAttempt_posts]
    rcases hvalid with h | h <;> simp [isLongSide, h]
  · have harg1 : (1004 : ℚ) / 1000 = 1 + 4 / 1000 := by norm_num
    have harg2 : (996 : ℚ) / 1000 = 1 - 4 / 1000 := by norm_num
    unfold tpPrice
    rcases env.pricePrec with _ | p <;> by_cases hil : isLongSide side <;>
      simp [hil, harg1, harg2]
  · by_cases hil : isLongSide side <;> simp [hil, opensPosition]

/-! ## Claim C10: unrecognised side strings -/

/-- C10: a request whose side, stripped and lower-cased, is neither
"long" nor "short" passes validation, is treated as Short for the
leverage position type (the single is_long flag that also selects the
take-profit direction is false), still triggers the balance fetch and
the leverage attempt, and then fails with HTTP 500 from the ValueError
raised inside order submission — before any order HTTP call and with no
400 validation error. -/
theorem C10_unknown_side (cfg : Config) (env : Env) (coin side : String) (ep : ℚ)
    (u mid : String) (bal : BalResp) (bq qty : ℚ)
    (hcoin : coin ≠ "") (hside : side ≠ "") (hep : ep ≠ 0)
    (hsuffix : pyEndsWith (headBeforeDot (pyUpper coin)) "USDT" = true)
    (hfind : findSwapMarket env.markets (pyDropRight (headBeforeDot (pyUpper coin)) 4) "USDT" =
      some (u, some mid))
    (hmid : mid ≠ "")
    (hbal : env.balance = .ok bal)
    (hext : extractUsdtBal bal = some bq) (hbq : ¬ bq ≤ 0)
    (hlong : pyLower (pyStrip side) ≠ "long") (hshort : pyLower (pyStrip side) ≠ "short")
    (hqty : computeQty cfg bq ep env.amountPrec = some qty) :
    webhook cfg env ⟨some coin, some side, some (.num ep)⟩ =
      ((500, .err (.entryFail (.badSide side))),
        [.fetchBalance,
         .setLeverage cfg.defaultLeverage 1 2 (!env.leverageFails),
         .placeAttempt mid side]) ∧
    isLongSide side = false := by
  have hil : isLongSide side = false := by
    simp [isLongSide, hlong]
  have hinv := place_invalid_side cfg.secret env.entryCtx mid side qty none cfg.defaultLeverage
    hlong hshort
  have hentry : (place_mexc_futures_order cfg.secret env.entryCtx mid side qty none
      cfg.defaultLeverage).result = .err (.badSide side) := by rw [hinv]
  have hw := webhook_to_afterBalance cfg env coin side ep u mid bal bq hcoin hside hep hsuffix
    hfind hmid hbal hext hbq
  have ha := afterBalance_entry_err cfg env side ep mid bq qty (.badSide side) hep hqty hentry
  rw [hw, ha, hinv, hil]
  exact ⟨rfl, rfl⟩

/-! ## Concrete environments for the success and failure scenarios -/

def cfgEx : Config := ⟨"secret", 1, 25⟩

def ethSwapMarkets : List (String × Market) :=
  [("ETH/USDT:USDT", ⟨some "swap", some "ETH", some "USDT", some "ETH_USDT"⟩)]

def balEx : BalResp := ⟨some 100, none⟩

/-- Both order submissions succeed. -/
def envAllOk : Env := ⟨ethSwapMarkets, .ok balEx, false, some 3, some 2, okCtx, okCtx⟩

/-- Entry succeeds, take-profit times out. -/
def envTpTimeout : Env := ⟨ethSwapMarkets, .ok balEx, false, some 3, some 2, okCtx, timeoutCtx⟩

/-- Entry times out. -/
def envEntryTimeout : Env :=
  ⟨ethSwapMarkets, .ok balEx, false, some 3, some 2, timeoutCtx, timeoutCtx⟩

unseal Rat.mul Rat.inv Rat.add Rat.sub in
/-- C8 witness: the theorem applied at a concrete entry timeout. -/
theorem C8_entry_failure_fatal_witness :
    (webhook cfgEx envEntryTimeout ⟨some "ETHUSDT.P", some "Long", some (.num 3000)⟩).1 =
      (500, .err (.entryFail .transport)) ∧
    countPlaceAttempts
      (webhook cfgEx envEntryTimeout ⟨some "ETHUSDT.P", some "Long", some (.num 3000)⟩).2 = 1 := by
  have h := C8_entry_failure_fatal cfgEx envEntryTimeout "ETHUSDT.P" "Long" 3000
    "ETH/USDT:USDT" "ETH_USDT" balEx 100 (833 / 1000) .transport
    (by decide) (by decide) (by decide) (by decide) (by decide) (by decide) rfl (by decide)
    (by decide) (by decide) (by decide)
  exact ⟨by rw [h.1], h.2⟩

unseal Rat.mul Rat.inv Rat.add Rat.sub in
/-- C7 witness: the theorem applied at a concrete scenario where the
entry succeeds and the take-profit submission times out. -/
theorem C7_tp_failure_nonfatal_witness :
    (webhook cfgEx envTpTimeout ⟨some "ETHUSDT.P", some "Long", some (.num 3000)⟩).1 =
      (200, .success "ETH_USDT" (833 / 1000) (.payload "d1") none) ∧
    countPlaceAttempts
      (webhook cfgEx envTpTimeout ⟨some "ETHUSDT.P", some "Long", some (.num 3000)⟩).2 = 2 := by
  have h := C7_tp_failure_nonfatal cfgEx envTpTimeout "ETHUSDT.P" "Long" 3000
    "ETH/USDT:USDT" "ETH_USDT" balEx 100 (833 / 1000) (.payload "d1") .transport
    (by decide) (by decide) (by decide) (by decide) (by decide) (by decide) rfl (by decide)
    (by decide) (by decide) (by decide) (by decide)
  exact ⟨h.1, h.2.2⟩

unseal Rat.mul Rat.inv Rat.add Rat.sub in
/-- C3 counterexample: in a fully successful long run, the take-profit
order is submitted with side code 3 and position type 2 — by the
source's own documented encoding an order that OPENS a short position —
while the claim requires reduce-only semantics that can only close,
never open, a position. -/
theorem C3_tp_derivation_cex :
    (webhook cfgEx envAllOk ⟨some "ETHUSDT.P", some "Long", some (.num 3000)⟩).1.1 = 200 ∧
    (webhook cfgEx envAllOk ⟨some "ETHUSDT.P", some "Long", some (.num 3000)⟩).2.get? 5 =
      some (.orderPost "ETH_USDT" 3 2 (833 / 1000) (some 3012)) ∧
    opensPosition 3 = true := by decide

unseal Rat.mul Rat.inv Rat.add Rat.sub in
/-- C3 witness: the amended theorem applied at the successful long
scenario. -/
theorem C3_tp_derivation_witness :
    (webhook cfgEx envAllOk ⟨some "ETHUSDT.P", some "Long", some (.num 3000)⟩).1.1 = 200 ∧
    tpPrice 3000 (isLongSide "Long") envAllOk.pricePrec =
      (match envAllOk.pricePrec with
        | some p => price_to_precision p
            (3000 * (if isLongSide "Long" then 1 + 4 / 1000 else 1 - 4 / 1000))
        | none => pyRound 2 (3000 * (if isLongSide "Long" then 1 + 4 / 1000 else 1 - 4 / 1000))) ∧
    opensPosition (if isLongSide "Long" then 3 else 1) = true := by
  have h := C3_tp_derivation cfgEx envAllOk "ETHUSDT.P" "Long" 3000 "ETH/USDT:USDT"
    "ETH_USDT" balEx 100 (833 / 1000) (.payload "d1")
    (by decide) (by decide) (by decide) (by decide) (by decide) (by decide) rfl (by decide)
    (by decide) (by decide) (by decide)
  exact ⟨by rw [h.1], h.2.1, h.2.2⟩

unseal Rat.mul Rat.inv Rat.add Rat.sub in
/-- C10 witness: the theorem applied at the side string "Buy". -/
theorem C10_unknown_side_witness :
    (webhook cfgEx envEntryTimeout ⟨some "ETHUSDT", some "Buy", some (.num 3000)⟩).1 =
      (500, .err (.entryFail (.badSide "Buy"))) ∧
    (webhook cfgEx envEntryTimeout ⟨some "ETHUSDT", some "Buy", some (.num 3000)⟩).2 =
      [.fetchBalance, .setLeverage 25 1 2 true, .placeAttempt "ETH_USDT" "Buy"] ∧
    isLongSide "Buy" = false := by
  have h := C10_unknown_side cfgEx envEntryTimeout "ETHUSDT" "Buy" 3000 "ETH/USDT:USDT"
    "ETH_USDT" balEx 100 (833 / 1000)
    (by decide) (by decide) (by decide) (by decide) (by decide) (by decide) rfl (by decide)
    (by decide) (by decide) (by decide) (by decide)
  exact ⟨by rw [h.1], by rw [h.1]; rfl, h.2⟩

/-! ## Claim C9: leverage ordering and non-fatality -/

/-- In every post-balance run, the leverage call precedes every order
POST and never follows one. -/
theorem afterBalance_levBefore (cfg : Config) (env : Env) (side : String) (ep : ℚ)
    (mid : String) (bq : ℚ) :
    levBeforeOrders (.fetchBalance :: (afterBalance cfg env side ep mid bq).2) = true := by
  unfold afterBalance
  by_cases hep : ep = 0
  · simp [hep]
    rfl
  · rw [if_neg hep]
    rcases hq : computeQty cfg bq ep env.amountPrec with _ | q
    · rfl
    · dsimp only
      rcases hr : (place_mexc_futures_order cfg.secret env.entryCtx mid side q none
          cfg.defaultLeverage).result with e | od
      · dsimp only
        rcases place_posts_shape cfg.secret env.entryCtx mid side q none cfg.defaultLeverage
          with hp | ⟨sp, pt, hp⟩ <;> rw [hp] <;> rfl
      · dsimp only
        rcases place_posts_shape cfg.secret env.entryCtx mid side q none cfg.defaultLeverage
          with hp | ⟨sp, pt, hp⟩ <;>
        rcases place_posts_shape cfg.secret env.tpCtx mid
            (if isLongSide side then "Short" else "Long") q
            (some (tpPrice ep (isLongSide side) env.pricePrec)) cfg.defaultLeverage
          with ht | ⟨sp2, pt2, ht⟩ <;> rw [hp, ht] <;> rfl

/-- In every full webhook run, the leverage call precedes every order
POST and never follows one. -/
theorem webhook_levBefore (cfg : Config) (env : Env) (req : Req) :
    levBeforeOrders (webhook cfg env req).2 = true := by
  unfold webhook
  repeat'
    first
      | rfl
      | exact afterBalance_levBefore _ _ _ _ _ _
      | split
      | dsimp only

/-- The leverage-failure flag affects neither the response nor the rest
of the trace of the post-balance pipeline: only the recorded outcome of
the leverage call differs. -/
theorem afterBalance_flag (cfg : Config) (m : List (String × Market)) (balr : BalFetch)
    (b1 b2 : Bool) (ap pp : Option ℕ) (ec tc : PlaceCtx) (side : String) (ep : ℚ)
    (mid : String) (bq : ℚ) :
    (afterBalance cfg ⟨m, balr, b1, ap, pp, ec, tc⟩ side ep mid bq).1 =
      (afterBalance cfg ⟨m, balr, b2, ap, pp, ec, tc⟩ side ep mid bq).1 ∧
    (afterBalance cfg ⟨m, balr, b1, ap, pp, ec, tc⟩ side ep mid bq).2.map stripLev =
      (afterBalance cfg ⟨m, balr, b2, ap, pp, ec, tc⟩ side ep mid bq).2.map stripLev := by
  unfold afterBalance
  dsimp only
  by_cases hep : ep = 0
  · simp [hep, stripLev]
  · simp only [if_neg hep]
    rcases hq : computeQty cfg bq ep ap with _ | q
    · simp [stripLev]
    · dsimp only
      rcases hr : (place_mexc_futures_order cfg.secret ec mid side q none
          cfg.defaultLeverage).result with e | od <;> simp [stripLev]

set_option maxHeartbeats 2000000 in
/-- C9: in every processed signal the leverage call is attempted before
the entry order submission and never after it, and a leverage-set
failure is non-fatal: the response and the rest of the trace are
identical whether the leverage call fails or succeeds — only the
recorded outcome of the leverage cell differs. -/
theorem C9_leverage_before_entry_nonfatal (cfg : Config) (env : Env) (req : Req) :
    levBeforeOrders (webhook cfg env req).2 = true ∧
    (webhook cfg {env with leverageFails := true} req).1 =
      (webhook cfg {env with leverageFails := false} req).1 ∧
    (webhook cfg {env with leverageFails := true} req).2.map stripLev =
      (webhook cfg {env with leverageFails := false} req).2.map stripLev := by
  refine ⟨webhook_levBefore cfg env req, ?_⟩
  rcases env with ⟨m, balr, lf, ap, pp, ec, tc⟩
  have key : ∀ b1 b2 : Bool,
      (webhook cfg ⟨m, balr, b1, ap, pp, ec, tc⟩ req).1 =
        (webhook cfg ⟨m, balr, b2, ap, pp, ec, tc⟩ req).1 ∧
      (webhook cfg ⟨m, balr, b1, ap, pp, ec, tc⟩ req).2.map stripLev =
        (webhook cfg ⟨m, balr, b2, ap, pp, ec, tc⟩ req).2.map stripLev := by
    intro b1 b2
    unfold webhook
    dsimp only
    repeat'
      first
        | split
        | dsimp only
        | exact ⟨rfl, rfl⟩
        | exact (fun h => ⟨h.1, by dsimp only [List.map]; rw [h.2]⟩)
            (afterBalance_flag cfg _ _ b1 b2 _ _ _ _ _ _ _ _)
  exact key true false

end CkMexx
